import Mathlib

set_option maxHeartbeats 1000000

/-!
Shallow embedding of the WalletConnect `Connector` class (the core of the
repository) and proofs about the claims of its specification.

The embedding follows the TypeScript source method by method.  JavaScript
objects that the source inspects structurally (`"result" in object`,
`payload.params[0].peerId`, object spread) are modelled as `JVal`, a JSON
value type; JavaScript truthiness is modelled by `JVal.truthy`.  Suspension
points (`await`) do not interleave with other connector activity in the
single-threaded model, so each method is a pure state transformer that also
returns the frames written to the socket and the internal events it fires.
-/

namespace WalletConnect

/-- JSON values, used for JSON-RPC payloads and crypto envelopes. -/
inductive JVal where
  | null : JVal
  | bool : Bool → JVal
  | num : Int → JVal
  | str : String → JVal
  | arr : List JVal → JVal
  | obj : List (String × JVal) → JVal
deriving Repr, Inhabited

/-- First binding of a key in a JS object's field list. -/
def JVal.lookupField : List (String × JVal) → String → Option JVal
  | [], _ => none
  | (k, v) :: rest, key => if k = key then some v else JVal.lookupField rest key

/-- Property access `o[key]`; `none` models JS `undefined`. -/
def JVal.get? : JVal → String → Option JVal
  | .obj fs, key => JVal.lookupField fs key
  | _, _ => none

/-- Array index access `o[i]`. -/
def JVal.item? : JVal → Nat → Option JVal
  | .arr xs, i => xs.get? i
  | _, _ => none

/-- JavaScript truthiness of a value. -/
def JVal.truthy : JVal → Bool
  | .null => false
  | .bool b => b
  | .num n => n != 0
  | .str s => s != ""
  | .arr _ => true
  | .obj _ => true

/-- JavaScript truthiness where `none` models `undefined` (falsy). -/
def truthyOpt : Option JVal → Bool
  | none => false
  | some v => v.truthy

/-- Coercion used when the source assigns a dynamically-typed field into a
string slot; non-string values are modelled as absent (empty string). -/
def asStringD : Option JVal → String
  | some (.str s) => s
  | _ => ""

/-- Coercion into an integer slot; non-numeric values are modelled as 0. -/
def asIntD : Option JVal → Int
  | some (.num n) => n
  | _ => 0

/-- Coercion into a string-list slot (the `accounts` field). -/
def asStrListD : Option JVal → List String
  | some (.arr xs) => xs.filterMap (fun v => match v with | .str s => some s | _ => none)
  | _ => []

/-- Escaping for `JSON.stringify` of a string. -/
def escapeChar (c : Char) : List Char :=
  if c = '"' ∨ c = '\\' then ['\\', c] else [c]

/-- Escaping for `JSON.stringify` applied to every character. -/
def escapeString (s : String) : String :=
  ⟨s.data.foldr (fun c acc => escapeChar c ++ acc) []⟩

mutual

/-- Model of `JSON.stringify` on a JSON value. -/
def JVal.stringify : JVal → String
  | .null => "null"
  | .bool b => if b then "true" else "false"
  | .num n => toString n
  | .str s => "\"" ++ escapeString s ++ "\""
  | .arr xs => "[" ++ JVal.stringifyItems xs ++ "]"
  | .obj fs => "\x7b" ++ JVal.stringifyProps fs ++ "\x7d"

/-- Comma-separated serialization of array items. -/
def JVal.stringifyItems : List JVal → String
  | [] => ""
  | [x] => JVal.stringify x
  | x :: y :: xs => JVal.stringify x ++ "," ++ JVal.stringifyItems (y :: xs)

/-- Comma-separated serialization of object properties. -/
def JVal.stringifyProps : List (String × JVal) → String
  | [] => ""
  | [(k, v)] => "\"" ++ escapeString k ++ "\":" ++ JVal.stringify v
  | (k, v) :: f :: fs =>
      "\"" ++ escapeString k ++ "\":" ++ JVal.stringify v ++ "," ++ JVal.stringifyProps (f :: fs)

end

/-- Model of `JSON.stringify(x)` where `x : IEncryptionPayload | null`;
`JSON.stringify(null)` is the string "null". -/
def stringifyNullable : Option JVal → String
  | none => "null"
  | some v => v.stringify

mutual

/-- Model of JavaScript string coercion (template interpolation). -/
def jsToString : JVal → String
  | .null => "null"
  | .bool b => if b then "true" else "false"
  | .num n => toString n
  | .str s => s
  | .arr xs => jsToStringItems xs
  | .obj _ => "[object Object]"

/-- JavaScript `Array.prototype.toString`: items joined by commas. -/
def jsToStringItems : List JVal → String
  | [] => ""
  | [x] => jsToString x
  | x :: y :: xs => jsToString x ++ "," ++ jsToStringItems (y :: xs)

end

/-- Model of the object-literal spread `\x7b base..., ...v \x7d`: the spread
object's own fields override the literal's earlier fields. -/
def objSpread (base : List (String × JVal)) (v : JVal) : JVal :=
  match v with
  | .obj fs => .obj (base.filter (fun p => (JVal.lookupField fs p.1).isNone) ++ fs)
  | _ => .obj base

-- -- hex codec (from ./utils) -------------------------------------------- --

/-- Modelled from the spec: `convertHexToArrayBuffer` lives in `./utils`,
which is not in the repository; the spec says keys are "stored as raw bytes;
encoded as hex at the boundary".  Value of one hex digit (non-digits read
as 0). -/
def hexDigitVal (c : Char) : Nat :=
  if '0' ≤ c ∧ c ≤ '9' then c.toNat - 48
  else if 'a' ≤ c ∧ c ≤ 'f' then c.toNat - 87
  else if 'A' ≤ c ∧ c ≤ 'F' then c.toNat - 55
  else 0

/-- Consecutive pairs of hex digits read as bytes. -/
def hexPairsToBytes : List Char → List Nat
  | c1 :: c2 :: rest => (16 * hexDigitVal c1 + hexDigitVal c2) :: hexPairsToBytes rest
  | [c] => [hexDigitVal c]
  | [] => []

/-- Modelled from the spec: hex string to raw bytes ("hex at the boundary"). -/
def convertHexToArrayBuffer (s : String) : List Nat :=
  hexPairsToBytes s.data

/-- Hex character for a nibble. -/
def hexChar (n : Nat) : Char :=
  if n < 10 then Char.ofNat (48 + n) else Char.ofNat (87 + n % 16)

/-- Modelled from the spec: raw bytes to hex string. -/
def convertArrayBufferToHex (b : List Nat) : String :=
  String.join (b.map (fun n => ⟨[hexChar (n / 16 % 16), hexChar (n % 16)]⟩))

-- -- injected collaborators ---------------------------------------------- --

/-- The injected crypto interface `ICryptoLib` (an external collaborator).
`generateKey` is a fresh random value and is passed explicitly at each call
site of `_generateKey`. -/
structure CryptoLib where
  encrypt : JVal → List Nat → JVal
  decrypt : JVal → List Nat → Option JVal

-- -- data model ----------------------------------------------------------- --

/-- A relay frame `ISocketMessage`. -/
structure ISocketMessage where
  topic : String
  type : String
  payload : String
deriving Repr, DecidableEq

/-- The session status argument `ISessionStatus`. -/
structure ISessionStatus where
  chainId : Int
  accounts : List String
deriving Repr, DecidableEq

/-- The mutable state of a `Connector` instance.  Field `x` models the
private field `_x` of the class; computed getters are separate functions.
`socket` records whether `_socket` is non-null; `emitters` records the
event names of the registered `IEventEmitter`s (their callbacks are
modelled separately); `storageSlot` is the content of the module-level
localStorage slot "walletconnect" (storage is modelled as available). -/
structure Connector where
  key : Option (List Nat)
  nextKey : Option (List Nat)
  clientId : String
  clientMeta : Option JVal
  peerId : String
  peerMeta : Option JVal
  handshakeId : Int
  handshakeTopic : String
  accounts : List String
  chainId : Int
  socket : Bool
  queue : List ISocketMessage
  emitters : List String
  connected : Bool
  bridge : String
  storageSlot : Option String
deriving Repr

-- -- setters / getters ---------------------------------------------------- --

/-- Setter `set key(value)`: empty values are ignored, others are hex-decoded. -/
def setKey (s : Connector) (value : String) : Connector :=
  if value = "" then s else { s with key := some (convertHexToArrayBuffer value) }

/-- Getter `get key()`: hex encoding of the key, or "" when absent. -/
def keyHex (s : Connector) : String :=
  match s.key with
  | some k => convertArrayBufferToHex k
  | none => ""

/-- Setter `set nextKey(value)`: empty values are ignored. -/
def setNextKey (s : Connector) (value : String) : Connector :=
  if value = "" then s else { s with nextKey := some (convertHexToArrayBuffer value) }

/-- Getter `get nextKey()`: hex encoding of the staged key, or "". -/
def nextKeyHex (s : Connector) : String :=
  match s.nextKey with
  | some k => convertArrayBufferToHex k
  | none => ""

/-- Setter `set clientId(value)`: empty values are ignored. -/
def setClientId (s : Connector) (value : String) : Connector :=
  if value = "" then s else { s with clientId := value }

/-- Getter `get clientId()`: lazily initialized with `uuid()`; the fresh
uuid the runtime would produce is the explicit argument `uu`. -/
def clientIdLazy (uu : String) (s : Connector) : String × Connector :=
  if s.clientId = "" then (uu, { s with clientId := uu }) else (s.clientId, s)

/-- Setter `set peerId(value)`: empty values are ignored. -/
def setPeerId (s : Connector) (value : String) : Connector :=
  if value = "" then s else { s with peerId := value }

/-- Setter `set peerMeta(value)`: unconditional assignment. -/
def setPeerMeta (s : Connector) (value : Option JVal) : Connector :=
  { s with peerMeta := value }

/-- Getter `get clientMeta()`: lazily initialized with `getMeta()`; the
meta record the runtime would produce is the explicit argument `gm`. -/
def clientMetaLazy (gm : JVal) (s : Connector) : JVal × Connector :=
  match s.clientMeta with
  | some m => (m, s)
  | none => (gm, { s with clientMeta := some gm })

/-- Setter `set handshakeId(value)`: zero (falsy) values are ignored. -/
def setHandshakeId (s : Connector) (value : Int) : Connector :=
  if value = 0 then s else { s with handshakeId := value }

/-- Setter `set handshakeTopic(value)`: empty values are ignored. -/
def setHandshakeTopic (s : Connector) (value : String) : Connector :=
  if value = "" then s else { s with handshakeTopic := value }

/-- Getter `get pending()`: `!!this._handshakeTopic`. -/
def pending (s : Connector) : Bool :=
  s.handshakeTopic != ""

-- -- storage -------------------------------------------------------------- --

/-- The session snapshot built by `get session()` (its getters `clientId`
and `clientMeta` have already been forced by the caller and are passed in). -/
def sessionJVal (s : Connector) (cid : String) (cm : JVal) : JVal :=
  .obj [("connected", .bool s.connected),
        ("accounts", .arr (s.accounts.map .str)),
        ("chainId", .num s.chainId),
        ("bridge", .str s.bridge),
        ("key", .str (keyHex s)),
        ("clientId", .str cid),
        ("clientMeta", cm),
        ("peerId", .str s.peerId),
        ("peerMeta", (s.peerMeta).getD .null),
        ("handshakeId", .num s.handshakeId),
        ("handshakeTopic", .str s.handshakeTopic)]

/-- Method `_setStorageSession`: serializes `this.session` into the slot.
Reading `this.session` forces the lazy `clientId` and `clientMeta` getters. -/
def setStorageSession (uu : String) (gm : JVal) (s : Connector) : Connector :=
  let cid := (clientIdLazy uu s).1
  let s1 := (clientIdLazy uu s).2
  let cm := (clientMetaLazy gm s1).1
  let s2 := (clientMetaLazy gm s1).2
  { s2 with storageSlot := some (JVal.stringify (sessionJVal s2 cid cm)) }

/-- Method `_removeStorageSession`: `storage.removeItem("walletconnect")`. -/
def removeStorageSession (s : Connector) : Connector :=
  { s with storageSlot := none }

-- -- crypto wrappers ------------------------------------------------------ --

/-- Method `_encrypt`: encrypts under the current key, or yields null when
the key is absent (the injected `cryptoLib` is always present, the
constructor requires it). -/
def encryptPayload (crypto : CryptoLib) (s : Connector) (data : JVal) : Option JVal :=
  match s.key with
  | some k => some (crypto.encrypt data k)
  | none => none

/-- Method `_decrypt`: decrypts under the current key, or yields null. -/
def decryptPayload (crypto : CryptoLib) (s : Connector) (envelope : JVal) : Option JVal :=
  match s.key with
  | some k => crypto.decrypt envelope k
  | none => none

-- -- transport ------------------------------------------------------------ --

/-- The tail of `_sendRequest` / `_sendResponse`: `_socketSend` when the
socket is present, `_setToQueue` otherwise.  Returns the messages written
to the socket; queued messages live in the state. -/
def sendOrQueue (s : Connector) (m : ISocketMessage) : Connector × List ISocketMessage :=
  if s.socket then (s, [m]) else ({ s with queue := s.queue ++ [m] }, [])

/-- Frames an operation emitted: written to the socket or appended to the
pre-connect queue. -/
def emittedBy (s : Connector) (r : Connector × List ISocketMessage) : List ISocketMessage :=
  r.2 ++ r.1.queue.drop s.queue.length

/-- Method `_dispatchQueue`: sends every queued frame in order, then clears
the queue. -/
def dispatchQueue (s : Connector) : Connector × List ISocketMessage :=
  ({ s with queue := [] }, s.queue)

/-- The `socket.onopen` handler installed by `_socketOpen`: records the
socket, queues the `sub` frame for `clientId` (forcing the lazy getter with
fresh uuid `uu`), then drains the queue.  The bridge-url rewriting and the
socket construction that precede this handler produce no frames. -/
def socketOpen (uu : String) (s : Connector) : Connector × List ISocketMessage :=
  let cid := (clientIdLazy uu { s with socket := true }).1
  let s1 := (clientIdLazy uu { s with socket := true }).2
  dispatchQueue { s1 with queue := s1.queue ++ [⟨cid, "sub", ""⟩] }

-- -- JSON-RPC layer ------------------------------------------------------- --

/-- Method `_formatRequest`: the literal `\x7b id: payloadId(), jsonrpc: "2.0",
...request \x7d`; the fresh `payloadId()` is the explicit argument `pid`, and
an `id` already present on the request overrides it (object spread). -/
def formatRequest (pid : Int) (request : JVal) : JVal :=
  objSpread [("id", .num pid), ("jsonrpc", .str "2.0")] request

/-- Method `_formatResponse`: the literal `\x7b jsonrpc: "2.0", ...response \x7d`. -/
def formatResponse (response : JVal) : JVal :=
  objSpread [("jsonrpc", .str "2.0")] response

/-- The response-correlator event name `response:<id>`. -/
def respKey (i : Int) : String :=
  "response:" ++ toString i

/-- Method `_subscribeToSessionResponse` / the registration in
`_subscribeToCallResponse`: `this.on("response:<id>", ...)` appends an
emitter; its callback behavior is modelled separately. -/
def subscribeToResponse (s : Connector) (i : Int) : Connector :=
  { s with emitters := s.emitters ++ [respKey i] }

/-- The topic expression `_topic || this.peerId` of `_sendRequest`. -/
def requestTopic (s : Connector) (tpc : Option String) : String :=
  match tpc with
  | some t => if t = "" then s.peerId else t
  | none => s.peerId

/-- Method `_sendRequest`: formats the request (consuming a fresh id `pid`),
encrypts under the current key, and emits a `pub` frame to `_topic || peerId`;
`JSON.stringify(null)` makes the payload the string "null" when encryption
yielded null. -/
def sendRequest (crypto : CryptoLib) (pid : Int) (s : Connector) (request : JVal)
    (tpc : Option String) : Connector × List ISocketMessage :=
  let callRequest := formatRequest pid request
  let enc := encryptPayload crypto s callRequest
  sendOrQueue s ⟨requestTopic s tpc, "pub", stringifyNullable enc⟩

/-- Method `_sendResponse`: encrypts under the current key and emits a `pub`
frame to `peerId`. -/
def sendResponse (crypto : CryptoLib) (s : Connector) (response : JVal) :
    Connector × List ISocketMessage :=
  let enc := encryptPayload crypto s response
  sendOrQueue s ⟨s.peerId, "pub", stringifyNullable enc⟩

/-- Method `_sendSessionRequest`: sends the (already formatted) request —
`_sendRequest` formats it again, consuming `pid2` whose value is overridden
by the request's own id — and registers a session-response correlator. -/
def sendSessionRequest (crypto : CryptoLib) (pid2 : Int) (s : Connector) (request : JVal)
    (tpc : Option String) : Connector × List ISocketMessage :=
  let r := sendRequest crypto pid2 s request tpc
  (subscribeToResponse r.1 (asIntD (request.get? "id")), r.2)

-- -- event dispatcher ----------------------------------------------------- --

/-- Type check `isRpcRequest`: structural presence of `method`. -/
def isRpcRequest (p : JVal) : Bool :=
  (p.get? "method").isSome

/-- Type check `isRpcResponse`: structural presence of `result`. -/
def isRpcResponse (p : JVal) : Bool :=
  (p.get? "result").isSome

/-- Type check `isInternalEvent`: structural presence of `event`. -/
def isInternalEvent (p : JVal) : Bool :=
  (p.get? "event").isSome

/-- The event key `_triggerEvents` computes for a payload: the request's
`method`, `response:<id>` for responses, the explicit `event` field for
internal events, "" otherwise. -/
def triggerEventKey (p : JVal) : String :=
  if isRpcRequest p then asStringD (p.get? "method")
  else if isRpcResponse p then "response:" ++ jsToString ((p.get? "id").getD .null)
  else if isInternalEvent p then asStringD (p.get? "event")
  else ""

/-- The emitter-selection logic of `_triggerEvents` over the table of
registered event names: matching emitters, else the `call_request` fallback. -/
def selectEvents (table : List String) (p : JVal) : List String :=
  let event := triggerEventKey p
  let matched := if event ≠ "" then table.filter (fun e => e == event) else []
  if matched.isEmpty then table.filter (fun e => e == "call_request") else matched

/-- The callback registered by `_subscribeToCallResponse`, invoked with a
null error: resolve with `payload.result` when truthy, else reject. -/
def callResponseOutcome (payload : JVal) : Except String JVal :=
  if truthyOpt (payload.get? "result") then .ok ((payload.get? "result").getD .null)
  else .error "Invalid JSON RPC response format received"

/-- Outcome of a pending call whose correlator `response:<i>` sits in the
emitter table when payload `p` is dispatched by `_triggerEvents`: the promise
settles exactly when the correlator is among the selected emitters. -/
def pendingCallResult (i : Int) (table : List String) (p : JVal) :
    Option (Except String JVal) :=
  if respKey i ∈ selectEvents table p then some (callResponseOutcome p)
  else none

/-- Method `_socketReceive` after the outer `JSON.parse` of the frame (a
malformed outer frame throws before any state is read): frames whose topic
is not among the active topics are dropped; otherwise the inner envelope is
parsed (`jsonParse` models the runtime's `JSON.parse`; malformed JSON
throws), decrypted, and the result — when non-null — is handed to
`_triggerEvents`.  Returns the state, the payload handed to
`_triggerEvents` (if any), and whether `_decrypt` was invoked. -/
def socketReceive (crypto : CryptoLib) (jsonParse : String → Option JVal) (uu : String)
    (s : Connector) (frame : ISocketMessage) :
    Except String (Connector × Option JVal × Bool) :=
  let cid := (clientIdLazy uu s).1
  let s1 := (clientIdLazy uu s).2
  if ¬ ([cid, s1.handshakeTopic].contains frame.topic) then .ok (s1, none, false)
  else match jsonParse frame.payload with
    | none => .error "TransportProtocolError"
    | some env => .ok (s1, decryptPayload crypto s1 env, true)

-- -- session state machine ------------------------------------------------ --

/-- The `ISessionParams` object literal built by the session operations. -/
def sessionParamsJVal (approved : Bool) (chainId : Option Int)
    (accounts : Option (List String)) (message : Option String) : JVal :=
  .obj [("approved", .bool approved),
        ("chainId", match chainId with | some c => .num c | none => .null),
        ("accounts", match accounts with | some a => .arr (a.map .str) | none => .null),
        ("message", match message with | some m => .str m | none => .null)]

/-- Method `approveSession`: throws when connected; otherwise records
`chainId`/`accounts`, replies to `handshakeId` with an approved
`ISessionParams`, marks connected, fires `connect`, persists.  Returns the
new state, the frames written to the socket, and the internal events fired. -/
def approveSession (crypto : CryptoLib) (uu : String) (gm : JVal) (s : Connector)
    (st : ISessionStatus) : Except String (Connector × List ISocketMessage × List JVal) :=
  if s.connected then .error "Session currently connected" else
  let s1 := { s with chainId := st.chainId, accounts := st.accounts }
  let params := sessionParamsJVal true (some s1.chainId) (some s1.accounts) none
  let response : JVal :=
    .obj [("id", .num s1.handshakeId), ("jsonrpc", .str "2.0"), ("result", params)]
  let r := sendResponse crypto s1 response
  let s2 := r.1
  let sent := r.2
  let s3 := { s2 with connected := true }
    let ev : JVal := .obj [("event", .str "connect"),
      ("params", .arr [.obj [("peerId", .str s3.peerId),
                             ("peerMeta", s3.peerMeta.getD .null),
                             ("chainId", .num s3.chainId),
                             ("accounts", .arr (s3.accounts.map .str))]])]
    .ok (setStorageSession uu gm s3, sent, [ev])

/-- Method `killSession`: throws when disconnected; otherwise sends a
`wc_sessionUpdate` with `approved:false`, marks disconnected, fires
`disconnect`, erases the storage slot.  `pid` is the `payloadId()` consumed
by its `_formatRequest`, `pid2` the one consumed (and overridden) inside
`_sendRequest`. -/
def killSession (crypto : CryptoLib) (pid pid2 : Int) (msg : Option String) (s : Connector) :
    Except String (Connector × List ISocketMessage × List JVal) :=
  if ¬ s.connected then .error "Session currently disconnected" else
  let params := sessionParamsJVal false none none msg
  let request := formatRequest pid
    (.obj [("method", .str "wc_sessionUpdate"), ("params", .arr [params])])
  let r := sendSessionRequest crypto pid2 s request none
  let s1 := r.1
  let sent := r.2
  let s2 := { s1 with connected := false }
    let ev : JVal := .obj [("event", .str "disconnect"),
      ("params", .arr [.obj [("message", match msg with | some m => .str m | none => .null)]])]
    .ok (removeStorageSession s2, sent, [ev])

/-- Method `_handleSessionResponse`: approved payloads connect (or update)
and persist; unapproved payloads disconnect and erase the storage slot.
Returns the new state and the internal events fired. -/
def handleSessionResponse (uu : String) (gm : JVal) (s : Connector) (sessionParams : JVal)
    (errorMsg : String) : Connector × List JVal :=
  if truthyOpt (sessionParams.get? "approved") then
    if ¬ s.connected then
      let s1 := { s with connected := true }
      let s2 := if truthyOpt (sessionParams.get? "chainId") then
          { s1 with chainId := asIntD (sessionParams.get? "chainId") } else s1
      let s3 := if truthyOpt (sessionParams.get? "accounts") then
          { s2 with accounts := asStrListD (sessionParams.get? "accounts") } else s2
      let ev : JVal := .obj [("event", .str "connect"),
        ("params", .arr [.obj [("peerId", .str s3.peerId),
                               ("peerMeta", s3.peerMeta.getD .null),
                               ("chainId", .num s3.chainId),
                               ("accounts", .arr (s3.accounts.map .str))]])]
      (setStorageSession uu gm s3, [ev])
    else
      let s2 := if truthyOpt (sessionParams.get? "chainId") then
          { s with chainId := asIntD (sessionParams.get? "chainId") } else s
      let s3 := if truthyOpt (sessionParams.get? "accounts") then
          { s2 with accounts := asStrListD (sessionParams.get? "accounts") } else s2
      let ev : JVal := .obj [("event", .str "session_update"),
        ("params", .arr [.obj [("chainId", .num s3.chainId),
                               ("accounts", .arr (s3.accounts.map .str))]])]
      (setStorageSession uu gm s3, [ev])
  else
    let s1 := { s with connected := false }
    let message := if truthyOpt (sessionParams.get? "message") then
        asStringD (sessionParams.get? "message") else errorMsg
    let ev : JVal := .obj [("event", .str "disconnect"),
      ("params", .arr [.obj [("message", .str message)]])]
    (removeStorageSession s1, [ev])

/-- The `wc_sessionUpdate` internal listener installed by
`_subscribeToInternalEvents`: `_handleSessionResponse(payload.params[0], ...)`. -/
def onSessionUpdatePayload (uu : String) (gm : JVal) (s : Connector) (payload : JVal) :
    Connector × List JVal :=
  handleSessionResponse uu gm s
    (((payload.get? "params").bind (fun v => v.item? 0)).getD .null) "Session disconnected"

/-- Method `approveRequest`: format the partial response and send it. -/
def approveRequest (crypto : CryptoLib) (s : Connector) (response : JVal) :
    Connector × List ISocketMessage :=
  sendResponse crypto s (formatResponse response)

/-- Method `rejectRequest`: format the partial response and send it. -/
def rejectRequest (crypto : CryptoLib) (s : Connector) (response : JVal) :
    Connector × List ISocketMessage :=
  sendResponse crypto s (formatResponse response)

-- -- key manager ---------------------------------------------------------- --

/-- Method `_swapKey`: `key := nextKey; nextKey := null`, then persist. -/
def swapKey (uu : String) (gm : JVal) (s : Connector) : Connector :=
  setStorageSession uu gm { s with key := s.nextKey, nextKey := none }

/-- Method `_handleExchangeKeyRequest` (responder side): records peer
identity, stages `nextKey` from the request, sends the success response —
encrypted under the still-current key — and only then swaps. -/
def handleExchangeKeyRequest (crypto : CryptoLib) (uu : String) (gm : JVal) (s : Connector)
    (payload : JVal) : Connector × List ISocketMessage :=
  let p0 := (payload.get? "params").bind (fun v => v.item? 0)
  let s1 := setPeerId s (asStringD (p0.bind (fun v => v.get? "peerId")))
  let s2 := setPeerMeta s1 (p0.bind (fun v => v.get? "peerMeta"))
  let s3 := setNextKey s2 (asStringD (p0.bind (fun v => v.get? "nextKey")))
  let response : JVal :=
    .obj [("id", (payload.get? "id").getD .null), ("jsonrpc", .str "2.0"), ("result", .bool true)]
  let r := sendResponse crypto s3 response
  (swapKey uu gm r.1, r.2)

/-- Method `_exchangeKey` (initiator side), up to its `await` of the call
response: stages a freshly generated `nextKey` (the `_generateKey` result is
the explicit argument `genKey`), builds and sends the `wc_exchangeKey`
request, and registers the call correlator.  The initiator swap happens in
the continuation when the response resolves. -/
def exchangeKey (crypto : CryptoLib) (uu : String) (gm : JVal) (genKey : Option (List Nat))
    (pid pid2 : Int) (s : Connector) : Connector × List ISocketMessage :=
  let s1 := { s with nextKey := genKey }
  let cid := (clientIdLazy uu s1).1
  let s2 := (clientIdLazy uu s1).2
  let cm := (clientMetaLazy gm s2).1
  let s3 := (clientMetaLazy gm s2).2
  let request := formatRequest pid (.obj [("method", .str "wc_exchangeKey"),
    ("params", .arr [.obj [("peerId", .str cid), ("peerMeta", cm),
                           ("nextKey", .str (nextKeyHex s3))]])])
  let r := sendRequest crypto pid2 s3 request none
  (subscribeToResponse r.1 pid, r.2)

-- -- uri codec ------------------------------------------------------------ --

/-- Split at the first occurrence of a separator character. -/
def splitFirst (sep : Char) : List Char → Option (List Char × List Char)
  | [] => none
  | c :: cs =>
    if c = sep then some ([], cs)
    else match splitFirst sep cs with
      | some (a, b) => some (c :: a, b)
      | none => none

/-- Split at every occurrence of a separator character. -/
def splitAll (sep : Char) : List Char → List (List Char)
  | [] => [[]]
  | c :: cs =>
    let r := splitAll sep cs
    if c = sep then [] :: r
    else match r with
      | h :: t => (c :: h) :: t
      | [] => [[c]]

/-- The `IParseURIResult` record. -/
structure IParseURIResult where
  protocol : String
  handshakeTopic : String
  version : String
  bridge : String
  key : String
deriving Repr, DecidableEq

/-- Modelled from the spec: `parseWalletConnectUri` lives in `./utils`,
which is not in the repository.  The spec gives the URI format
`wc:<handshakeTopic>@<version>?bridge=<url-encoded>&key=<hex>`; this
splitter extracts those components, with "" for any missing one. -/
def parseWalletConnectUri (uri : String) : IParseURIResult :=
  let (proto, rest) := (splitFirst ':' uri.data).getD (uri.data, [])
  let (beforeQuery, query) := (splitFirst '?' rest).getD (rest, [])
  let (topic, ver) := (splitFirst '@' beforeQuery).getD (beforeQuery, [])
  let params := (splitAll '&' query).map (fun p => (splitFirst '=' p).getD (p, []))
  let findParam := fun (nm : String) =>
    match params.find? (fun q => String.mk q.1 = nm) with
    | some q => String.mk q.2
    | none => ""
  ⟨String.mk proto, String.mk topic, String.mk ver, findParam "bridge", findParam "key"⟩

/-- Percent-escape decoding: `%XY` becomes the character with hex code XY. -/
def percentDecode : List Char → List Char
  | '%' :: c1 :: c2 :: rest =>
      Char.ofNat (16 * hexDigitVal c1 + hexDigitVal c2) :: percentDecode rest
  | c :: rest => c :: percentDecode rest
  | [] => []

/-- Modelled from the spec: the runtime's `decodeURIComponent`, which the
spec describes as URL-decoding the bridge. -/
def decodeURIComponent (s : String) : String :=
  ⟨percentDecode s.data⟩

/-- The record `_parseUri` returns on success. -/
structure ParsedUri where
  handshakeTopic : String
  bridge : String
  key : String
deriving Repr, DecidableEq

/-- Method `_parseUri`: validates `protocol == "wc"` and the three
non-empty fields, URL-decoding the bridge; throws otherwise (the thrown
messages are the source's, including its "kkey" typo). -/
def parseUri (uri : String) : Except String ParsedUri :=
  let result := parseWalletConnectUri uri
  if result.protocol = "wc" then
    if result.handshakeTopic = "" then
      .error "Invalid or missing handshakeTopic parameter value"
    else if result.bridge = "" then
      .error "Invalid or missing bridge url parameter value"
    else if result.key = "" then
      .error "Invalid or missing kkey parameter value"
    else .ok ⟨result.handshakeTopic, decodeURIComponent result.bridge, result.key⟩
  else .error "URI format does not follow Connector protocol"

/-- The shape of a decrypted `wc_exchangeKey` request as built by
`_exchangeKey` on the initiator: a formatted JSON-RPC request whose single
params entry carries `peerId`, `peerMeta` and the hex-encoded `nextKey`. -/
def exchangeKeyPayload (i : Int) (pid : String) (pmeta : JVal) (nk : String) : JVal :=
  .obj [("id", .num i), ("jsonrpc", .str "2.0"), ("method", .str "wc_exchangeKey"),
        ("params", .arr [.obj [("peerId", .str pid), ("peerMeta", pmeta),
                               ("nextKey", .str nk)]])]

-- -- sample values for concrete evaluations ------------------------------- --

/-- A concrete crypto library for concrete evaluations: the envelope records
the plaintext and the key, so encryption under distinct keys is observable. -/
def sampleCrypto : CryptoLib :=
  ⟨fun d k => .obj [("data", d), ("hmac", .arr (k.map .num))], fun e _ => e.get? "data"⟩

/-- A concrete connector state: no key yet, open socket, peer and handshake
identifiers set, not connected. -/
def st0 : Connector :=
  ⟨none, none, "c", some (.obj [("name", .str "m")]), "p", none, 42, "t", ["0xa"], 1,
   true, [], [], false, "https://b.example", none⟩

-- -- structural lemmas ---------------------------------------------------- --

theorem clientIdLazy_fst (uu : String) (s : Connector) :
    (clientIdLazy uu s).1 = if s.clientId = "" then uu else s.clientId := by
  unfold clientIdLazy; split <;> rfl

theorem clientIdLazy_snd (uu : String) (s : Connector) :
    (clientIdLazy uu s).2 = { s with clientId := (clientIdLazy uu s).1 } := by
  unfold clientIdLazy; split <;> rfl

theorem clientMetaLazy_snd (gm : JVal) (s : Connector) :
    (clientMetaLazy gm s).2 = { s with clientMeta := some (clientMetaLazy gm s).1 } := by
  unfold clientMetaLazy
  split
  next m h => rw [← h]
  next h => rfl

theorem sendOrQueue_fst (s : Connector) (m : ISocketMessage) :
    (sendOrQueue s m).1 = { s with queue := if s.socket then s.queue else s.queue ++ [m] } := by
  unfold sendOrQueue
  split <;> rfl

theorem sendOrQueue_snd (s : Connector) (m : ISocketMessage) :
    (sendOrQueue s m).2 = if s.socket then [m] else [] := by
  unfold sendOrQueue
  split <;> rfl

theorem emittedBy_sendOrQueue (s : Connector) (m : ISocketMessage) :
    emittedBy s (sendOrQueue s m) = [m] := by
  unfold emittedBy
  rw [sendOrQueue_fst, sendOrQueue_snd]
  by_cases h : s.socket <;> simp [h, List.drop_left, List.drop_length]

theorem sendResponse_eq (crypto : CryptoLib) (s : Connector) (response : JVal) :
    sendResponse crypto s response
      = sendOrQueue s ⟨s.peerId, "pub", stringifyNullable (encryptPayload crypto s response)⟩ :=
  rfl

theorem sendRequest_eq (crypto : CryptoLib) (pid : Int) (s : Connector) (request : JVal)
    (tpc : Option String) :
    sendRequest crypto pid s request tpc
      = sendOrQueue s ⟨requestTopic s tpc, "pub",
          stringifyNullable (encryptPayload crypto s (formatRequest pid request))⟩ :=
  rfl

theorem setPeerId_key (s : Connector) (v : String) : (setPeerId s v).key = s.key := by
  unfold setPeerId; split <;> rfl

theorem setPeerId_socket (s : Connector) (v : String) : (setPeerId s v).socket = s.socket := by
  unfold setPeerId; split <;> rfl

theorem setNextKey_peerId (s : Connector) (v : String) : (setNextKey s v).peerId = s.peerId := by
  unfold setNextKey; split <;> rfl

theorem sendResponse_fst_of_socket (crypto : CryptoLib) (s : Connector) (response : JVal)
    (hs : s.socket = true) : (sendResponse crypto s response).1 = s := by
  rw [sendResponse_eq, sendOrQueue_fst, if_pos hs]

theorem sendResponse_snd_of_key (crypto : CryptoLib) (s : Connector) (response : JVal)
    (k : List Nat) (hk : s.key = some k) (hs : s.socket = true) :
    (sendResponse crypto s response).2
      = [⟨s.peerId, "pub", (crypto.encrypt response k).stringify⟩] := by
  rw [sendResponse_eq, sendOrQueue_snd, if_pos hs]
  simp [encryptPayload, hk, stringifyNullable]

theorem setStorageSession_connected (uu : String) (gm : JVal) (s : Connector) :
    (setStorageSession uu gm s).connected = s.connected := by
  simp [setStorageSession, clientIdLazy_snd, clientMetaLazy_snd]

theorem setStorageSession_handshakeTopic (uu : String) (gm : JVal) (s : Connector) :
    (setStorageSession uu gm s).handshakeTopic = s.handshakeTopic := by
  simp [setStorageSession, clientIdLazy_snd, clientMetaLazy_snd]

theorem setStorageSession_key (uu : String) (gm : JVal) (s : Connector) :
    (setStorageSession uu gm s).key = s.key := by
  simp [setStorageSession, clientIdLazy_snd, clientMetaLazy_snd]

theorem setStorageSession_nextKey (uu : String) (gm : JVal) (s : Connector) :
    (setStorageSession uu gm s).nextKey = s.nextKey := by
  simp [setStorageSession, clientIdLazy_snd, clientMetaLazy_snd]

theorem setStorageSession_peerId (uu : String) (gm : JVal) (s : Connector) :
    (setStorageSession uu gm s).peerId = s.peerId := by
  simp [setStorageSession, clientIdLazy_snd, clientMetaLazy_snd]

theorem setStorageSession_socket (uu : String) (gm : JVal) (s : Connector) :
    (setStorageSession uu gm s).socket = s.socket := by
  simp [setStorageSession, clientIdLazy_snd, clientMetaLazy_snd]

theorem respKey_data (i : Int) :
    (respKey i).data
      = 'r' :: 'e' :: 's' :: 'p' :: 'o' :: 'n' :: 's' :: 'e' :: ':' :: (toString i).data := by
  cases h : toString i with
  | mk l =>
    rw [respKey, h]
    rfl

theorem respKey_ne_empty (i : Int) : respKey i ≠ "" := by
  intro h
  have h2 := congrArg String.data h
  rw [respKey_data] at h2
  simp at h2

theorem respKey_ne_call_request (i : Int) : respKey i ≠ "call_request" := by
  intro h
  have h2 := congrArg String.data h
  rw [respKey_data,
    show ("call_request").data = ['c','a','l','l','_','r','e','q','u','e','s','t'] from rfl] at h2
  simp at h2

-- -- claims --------------------------------------------------------------- --

/-- C1, counterexample: in a state with no symmetric key (`st0.key = none`)
and an open socket, `_encrypt` yields null as claimed, but `_sendResponse`
still writes a relay frame to the socket — its payload is the string
`JSON.stringify(null) = "null"` — so a frame IS emitted, refuting the claim
that no frame is emitted. -/
theorem claim_C1_counterexample :
    encryptPayload sampleCrypto st0 (.obj [("id", .num 1), ("result", .bool true)]) = none ∧
    (sendResponse sampleCrypto st0 (.obj [("id", .num 1), ("result", .bool true)])).2
      = [⟨"p", "pub", "null"⟩] :=
  ⟨rfl, rfl⟩

/-- C1, amended: if the key is absent when encryption is attempted, the
operation yields null, but the outbound request or response frame is still
emitted (written to the socket, or queued when the socket is not yet open)
with the literal payload "null". -/
theorem claim_C1_amended (crypto : CryptoLib) (pid : Int) (s : Connector)
    (request response : JVal) (tpc : Option String) (h : s.key = none) :
    encryptPayload crypto s response = none ∧
    emittedBy s (sendRequest crypto pid s request tpc)
      = [⟨requestTopic s tpc, "pub", "null"⟩] ∧
    emittedBy s (sendResponse crypto s response) = [⟨s.peerId, "pub", "null"⟩] := by
  have he : ∀ d : JVal, encryptPayload crypto s d = none := by
    intro d; simp [encryptPayload, h]
  refine ⟨he response, ?_, ?_⟩
  · rw [sendRequest_eq, he, emittedBy_sendOrQueue]; rfl
  · rw [sendResponse_eq, he, emittedBy_sendOrQueue]; rfl

/-- C1, witness for the amended theorem at a concrete keyless state. -/
theorem claim_C1_witness :
    encryptPayload sampleCrypto st0 (.str "m") = none ∧
    emittedBy st0 (sendRequest sampleCrypto 1 st0 (.obj [("method", .str "eth_sign")]) none)
      = [⟨"p", "pub", "null"⟩] ∧
    emittedBy st0 (sendResponse sampleCrypto st0 (.str "m")) = [⟨"p", "pub", "null"⟩] :=
  claim_C1_amended sampleCrypto 1 st0 (.obj [("method", .str "eth_sign")]) (.str "m") none rfl

/-- C2: on the responder side, `_handleExchangeKeyRequest` first sends the
`wc_exchangeKey` success acknowledgement encrypted under the current (old)
key `k` — and that is the only frame it produces — and only then swaps
(`key := nextKey; nextKey := null`); afterwards the key is the staged one
decoded from the request, and every frame produced from the post-swap state
is encrypted under that new key. -/
theorem claim_C2 (crypto : CryptoLib) (uu : String) (gm : JVal) (s : Connector)
    (i : Int) (pid : String) (pmeta : JVal) (nk : String) (k : List Nat)
    (hk : s.key = some k) (hnk : nk ≠ "") (hs : s.socket = true) :
    (handleExchangeKeyRequest crypto uu gm s (exchangeKeyPayload i pid pmeta nk)).2
      = [⟨(setPeerId s pid).peerId, "pub",
          (crypto.encrypt (.obj [("id", .num i), ("jsonrpc", .str "2.0"),
            ("result", .bool true)]) k).stringify⟩] ∧
    (handleExchangeKeyRequest crypto uu gm s (exchangeKeyPayload i pid pmeta nk)).1.key
      = some (convertHexToArrayBuffer nk) ∧
    (handleExchangeKeyRequest crypto uu gm s (exchangeKeyPayload i pid pmeta nk)).1.nextKey
      = none ∧
    (∀ response : JVal,
      (sendResponse crypto
          (handleExchangeKeyRequest crypto uu gm s (exchangeKeyPayload i pid pmeta nk)).1
          response).2
        = [⟨(handleExchangeKeyRequest crypto uu gm s (exchangeKeyPayload i pid pmeta nk)).1.peerId,
            "pub", (crypto.encrypt response (convertHexToArrayBuffer nk)).stringify⟩]) := by
  have hunf : handleExchangeKeyRequest crypto uu gm s (exchangeKeyPayload i pid pmeta nk)
      = (swapKey uu gm
          (sendResponse crypto (setNextKey (setPeerMeta (setPeerId s pid) (some pmeta)) nk)
            (.obj [("id", .num i), ("jsonrpc", .str "2.0"), ("result", .bool true)])).1,
         (sendResponse crypto (setNextKey (setPeerMeta (setPeerId s pid) (some pmeta)) nk)
            (.obj [("id", .num i), ("jsonrpc", .str "2.0"), ("result", .bool true)])).2) := rfl
  have hS3 : setNextKey (setPeerMeta (setPeerId s pid) (some pmeta)) nk
      = { setPeerMeta (setPeerId s pid) (some pmeta) with
          nextKey := some (convertHexToArrayBuffer nk) } := by
    unfold setNextKey
    rw [if_neg hnk]
  have hS3key : (setNextKey (setPeerMeta (setPeerId s pid) (some pmeta)) nk).key = some k := by
    rw [hS3]
    show (setPeerId s pid).key = some k
    rw [setPeerId_key, hk]
  have hS3socket : (setNextKey (setPeerMeta (setPeerId s pid) (some pmeta)) nk).socket = true := by
    rw [hS3]
    show (setPeerId s pid).socket = true
    rw [setPeerId_socket, hs]
  have hfst : (sendResponse crypto (setNextKey (setPeerMeta (setPeerId s pid) (some pmeta)) nk)
      (.obj [("id", .num i), ("jsonrpc", .str "2.0"), ("result", .bool true)])).1
      = setNextKey (setPeerMeta (setPeerId s pid) (some pmeta)) nk :=
    sendResponse_fst_of_socket crypto _ _ hS3socket
  have hkey : (handleExchangeKeyRequest crypto uu gm s (exchangeKeyPayload i pid pmeta nk)).1.key
      = some (convertHexToArrayBuffer nk) := by
    rw [hunf]
    show (swapKey uu gm _).key = _
    rw [swapKey, setStorageSession_key, hfst, hS3]
  have hsock : (handleExchangeKeyRequest crypto uu gm s
      (exchangeKeyPayload i pid pmeta nk)).1.socket = true := by
    rw [hunf]
    show (swapKey uu gm _).socket = _
    rw [swapKey, setStorageSession_socket, hfst]
    show (setNextKey (setPeerMeta (setPeerId s pid) (some pmeta)) nk).socket = true
    exact hS3socket
  refine ⟨?_, hkey, ?_, ?_⟩
  · rw [hunf]
    show (sendResponse crypto _ _).2 = _
    rw [sendResponse_snd_of_key crypto _ _ k hS3key hS3socket, setNextKey_peerId]
    rfl
  · rw [hunf]
    show (swapKey uu gm _).nextKey = _
    rw [swapKey, setStorageSession_nextKey, hfst]
  · intro response
    exact sendResponse_snd_of_key crypto _ response _ hkey hsock

/-- C2, witness: at a concrete responder state with old key `[9]` and an
inbound `wc_exchangeKey` staging hex "ab", the post-handler key is the
decoded byte `[171]`. -/
theorem claim_C2_witness :
    (handleExchangeKeyRequest sampleCrypto "u" (.null) { st0 with key := some [9] }
        (exchangeKeyPayload 5 "p2" .null "ab")).1.key = some [171] := by
  have h := claim_C2 sampleCrypto "u" (.null) { st0 with key := some [9] } 5 "p2" (.null)
    "ab" [9] rfl (by decide) rfl
  exact h.2.1

/-- C3, counterexample: in a state whose staged `nextKey` is `[1]` (a key
exchange already in flight), `_exchangeKey` is not disallowed: it overwrites
the staged `nextKey` with the freshly generated `[2]` and sends the
`wc_exchangeKey` request (one frame emitted). -/
theorem claim_C3_counterexample :
    ({ st0 with nextKey := some [1], key := some [9] } : Connector).nextKey = some [1] ∧
    (exchangeKey sampleCrypto "u" .null (some [2]) 7 8
        { st0 with nextKey := some [1], key := some [9] }).1.nextKey = some [2] ∧
    (exchangeKey sampleCrypto "u" .null (some [2]) 7 8
        { st0 with nextKey := some [1], key := some [9] }).2.length = 1 :=
  ⟨rfl, rfl, rfl⟩

/-- C3, amended: `_exchangeKey` performs no in-flight check at all — from
every state, including any with a non-empty staged `nextKey`, it overwrites
`nextKey` with the freshly generated key and emits the `wc_exchangeKey`
request (exactly one frame). -/
theorem claim_C3_amended (crypto : CryptoLib) (uu : String) (gm : JVal)
    (genKey : Option (List Nat)) (pid pid2 : Int) (s : Connector) :
    (exchangeKey crypto uu gm genKey pid pid2 s).1.nextKey = genKey ∧
    (emittedBy s (exchangeKey crypto uu gm genKey pid pid2 s)).length = 1 := by
  constructor
  · simp [exchangeKey, subscribeToResponse, sendRequest_eq, sendOrQueue_fst,
      clientIdLazy_snd, clientMetaLazy_snd]
  · unfold emittedBy
    simp only [exchangeKey, subscribeToResponse, sendRequest_eq, sendOrQueue_fst,
      sendOrQueue_snd, clientIdLazy_snd, clientMetaLazy_snd]
    by_cases h : s.socket = true <;>
      simp [h, List.drop_length, List.drop_left]

/-- C4, counterexample: with one frame queued before the socket opens, the
`onopen` handler emits the queued frame FIRST and the `clientId` subscribe
frame last — the subscribe frame does not precede the queued frames. -/
theorem claim_C4_counterexample :
    (socketOpen "u" { st0 with socket := false, queue := [⟨"t", "pub", "x"⟩] }).2
      = [⟨"t", "pub", "x"⟩, ⟨"c", "sub", ""⟩] :=
  rfl

/-- C4, amended: on socket open the transport appends the subscribe frame
`(clientId, "sub", "")` to the queue and then drains it, so the previously
queued frames are emitted first, in their original submission order, and the
`clientId` subscribe frame is emitted last; the queue is left empty. -/
theorem claim_C4_amended (uu : String) (s : Connector) :
    (socketOpen uu s).2
      = s.queue ++ [⟨if s.clientId = "" then uu else s.clientId, "sub", ""⟩] ∧
    (socketOpen uu s).1.queue = [] := by
  unfold socketOpen dispatchQueue
  refine ⟨?_, rfl⟩
  rw [clientIdLazy_fst, clientIdLazy_snd]

/-- C5, counterexample: from a reachable wallet-side state (`handshakeTopic`
set by the handshake URI, not yet connected), `approveSession` yields a
state in which `connected = true` while the `pending` getter — which is just
`!!handshakeTopic` and is never cleared — still returns `true`, so pending
and connected hold simultaneously. -/
theorem claim_C5_counterexample :
    (approveSession sampleCrypto "u" .null { st0 with key := some [9] } ⟨1, ["0xa"]⟩).toOption.map
      (fun r => (r.1.connected, pending r.1)) = some (true, true) :=
  rfl

/-- C5, amended: `pending` is merely `handshakeTopic ≠ ""` (it does not
exclude connected states), and `approveSession` from any not-connected state
with a non-empty `handshakeTopic` succeeds and produces a state that is
both connected and pending. -/
theorem claim_C5_amended (crypto : CryptoLib) (uu : String) (gm : JVal) (s : Connector)
    (st : ISessionStatus) (h1 : s.connected = false) (h2 : s.handshakeTopic ≠ "") :
    ∃ s1 sent evs, approveSession crypto uu gm s st = .ok (s1, sent, evs) ∧
      s1.connected = true ∧ pending s1 = true := by
  simp only [approveSession, h1, Bool.false_eq_true, if_false]
  refine ⟨_, _, _, rfl, ?_, ?_⟩
  · rw [setStorageSession_connected]
  · rw [pending, setStorageSession_handshakeTopic]
    simp [sendResponse_eq, sendOrQueue_fst, h2]

/-- C5, witness for the amended theorem at a concrete pending state. -/
theorem claim_C5_witness :
    ∃ s1 sent evs,
      approveSession sampleCrypto "u" (.null) { st0 with key := some [9] } ⟨1, ["0xa"]⟩
        = .ok (s1, sent, evs) ∧ s1.connected = true ∧ pending s1 = true :=
  claim_C5_amended sampleCrypto "u" (.null) { st0 with key := some [9] } ⟨1, ["0xa"]⟩
    rfl (by decide)

/-- C6, counterexample: a URI whose version component is `2` is accepted —
`_parseUri` checks the protocol and the three fields but never inspects the
version, so the claim that unsupported versions are rejected fails. -/
theorem claim_C6_counterexample :
    parseUri "wc:abc@2?bridge=xyz&key=k" = .ok ⟨"abc", "xyz", "k"⟩ ∧
    (parseWalletConnectUri "wc:abc@2?bridge=xyz&key=k").version = "2" :=
  ⟨rfl, rfl⟩

/-- C6, amended: parsing URL-decodes the bridge and validates that the
protocol equals "wc" and that `handshakeTopic`, `bridge` and `key` are all
non-empty, succeeding exactly under those conditions and failing with an
invalid-URI error otherwise; the version component is parsed but never
validated. -/
theorem claim_C6_amended (uri : String) :
    ((parseWalletConnectUri uri).protocol = "wc" →
     (parseWalletConnectUri uri).handshakeTopic ≠ "" →
     (parseWalletConnectUri uri).bridge ≠ "" →
     (parseWalletConnectUri uri).key ≠ "" →
      parseUri uri = .ok ⟨(parseWalletConnectUri uri).handshakeTopic,
        decodeURIComponent (parseWalletConnectUri uri).bridge,
        (parseWalletConnectUri uri).key⟩) ∧
    ((parseUri uri).isOk = true →
      (parseWalletConnectUri uri).protocol = "wc" ∧
      (parseWalletConnectUri uri).handshakeTopic ≠ "" ∧
      (parseWalletConnectUri uri).bridge ≠ "" ∧
      (parseWalletConnectUri uri).key ≠ "") := by
  constructor
  · intro hp ht hb hk
    simp [parseUri, hp, ht, hb, hk]
  · intro h
    simp only [parseUri] at h
    by_cases hp : (parseWalletConnectUri uri).protocol = "wc" <;>
      by_cases ht : (parseWalletConnectUri uri).handshakeTopic = "" <;>
      by_cases hb : (parseWalletConnectUri uri).bridge = "" <;>
      by_cases hk : (parseWalletConnectUri uri).key = "" <;>
      simp_all [Except.isOk, Except.toBool]

/-- C6, witness for the amended theorem: a valid version-1 URI with a
percent-encoded bridge parses, with the bridge URL-decoded. -/
theorem claim_C6_witness :
    parseUri "wc:a@1?bridge=b%20c&key=k" = .ok ⟨"a", "b c", "k"⟩ := by
  have h := (claim_C6_amended "wc:a@1?bridge=b%20c&key=k").1
    (by decide) (by decide) (by decide) (by decide)
  exact h

/-- C7, counterexample: a response payload carrying only an `error` field
(no `result` key) is not classified as a response by `_triggerEvents` — its
event key is empty, so dispatch falls back to the `call_request` listeners
and the pending call's `response:1` correlator never fires: the promise is
neither resolved nor rejected, refuting the claim that such a response
rejects the pending call through the `response:<id>` correlator. -/
theorem claim_C7_counterexample :
    pendingCallResult 1 ["response:1"]
      (.obj [("id", .num 1), ("jsonrpc", .str "2.0"),
             ("error", .obj [("message", .str "bad")])]) = none ∧
    selectEvents ["response:1", "call_request"]
      (.obj [("id", .num 1), ("jsonrpc", .str "2.0"),
             ("error", .obj [("message", .str "bad")])]) = ["call_request"] :=
  ⟨rfl, rfl⟩

/-- C7, amended: for an inbound payload correlated to pending call `i`
(no `method`, id `i`, correlator registered): when a `result` field is
present, the correlator fires and the promise resolves with the result if it
is truthy and is rejected with the invalid-format error otherwise; when the
`result` key is absent, the payload is not classified as a response — it is
dispatched to the `call_request` fallback listeners and the pending promise
is not settled at all. -/
theorem claim_C7_amended (i : Int) (p : JVal) (table : List String)
    (hm : p.get? "method" = none) (hi : p.get? "id" = some (.num i))
    (he : p.get? "event" = none) (htab : respKey i ∈ table) :
    (∀ r, p.get? "result" = some r →
      pendingCallResult i table p
        = some (if r.truthy then .ok r
                else .error "Invalid JSON RPC response format received")) ∧
    (p.get? "result" = none →
      pendingCallResult i table p = none ∧
      selectEvents table p = table.filter (fun e => e == "call_request")) := by
  constructor
  · intro r hr
    have hkey : triggerEventKey p = respKey i := by
      simp [triggerEventKey, isRpcRequest, isRpcResponse, hm, hr, hi, jsToString, respKey]
    have hmem : respKey i ∈ table.filter (fun e => e == respKey i) :=
      List.mem_filter.mpr ⟨htab, by simp⟩
    have hne : (table.filter (fun e => e == respKey i)).isEmpty = false := by
      rcases hq : table.filter (fun e => e == respKey i) with _ | ⟨a, t⟩
      · rw [hq] at hmem
        cases hmem
      · rfl
    have hsel : selectEvents table p = table.filter (fun e => e == respKey i) := by
      simp only [selectEvents, hkey]
      rw [if_pos (respKey_ne_empty i), hne]
      simp
    have hout : callResponseOutcome p
        = if r.truthy then .ok r else .error "Invalid JSON RPC response format received" := by
      simp [callResponseOutcome, hr, truthyOpt]
    rw [pendingCallResult, hsel, if_pos hmem, hout]
  · intro hr
    have hkey0 : triggerEventKey p = "" := by
      simp [triggerEventKey, isRpcRequest, isRpcResponse, isInternalEvent, hm, hr, he]
    have hsel0 : selectEvents table p = table.filter (fun e => e == "call_request") := by
      simp [selectEvents, hkey0]
    have hnotmem : respKey i ∉ table.filter (fun e => e == "call_request") := by
      intro hmem
      exact respKey_ne_call_request i (by simpa using (List.mem_filter.mp hmem).2)
    exact ⟨by rw [pendingCallResult, hsel0, if_neg hnotmem], hsel0⟩

/-- C7, witness for the amended theorem: a response with a truthy result
resolves the pending call with that result. -/
theorem claim_C7_witness :
    pendingCallResult 3 ["response:3"] (.obj [("id", .num 3), ("result", .str "0xdead")])
      = some (.ok (.str "0xdead")) := by
  have h := (claim_C7_amended 3 (.obj [("id", .num 3), ("result", .str "0xdead")])
    ["response:3"] rfl rfl rfl (by decide)).1 (.str "0xdead") rfl
  exact h

/-- C8: after `killSession` from a connected state, and after
`_handleSessionResponse` processes any session params with a falsy
`approved` (the inbound negative `wc_sessionUpdate` path), the storage slot
is empty and the connected flag is false. -/
theorem claim_C8 (crypto : CryptoLib) (pid pid2 : Int) (msg : Option String) (s : Connector)
    (uu : String) (gm : JVal) (s2 : Connector) (params : JVal) (errMsg : String)
    (hc : s.connected = true) (ha : truthyOpt (params.get? "approved") = false) :
    (∃ s1 sent evs, killSession crypto pid pid2 msg s = .ok (s1, sent, evs) ∧
      s1.storageSlot = none ∧ s1.connected = false) ∧
    ((handleSessionResponse uu gm s2 params errMsg).1.storageSlot = none ∧
     (handleSessionResponse uu gm s2 params errMsg).1.connected = false) := by
  constructor
  · simp only [killSession, hc, not_true, if_false]
    exact ⟨_, _, _, rfl, rfl, rfl⟩
  · rw [handleSessionResponse, if_neg (by rw [ha]; exact Bool.false_ne_true)]
    exact ⟨rfl, rfl⟩

/-- C8, witness at a concrete connected state and a concrete negative
session update. -/
theorem claim_C8_witness :
    (∃ s1 sent evs, killSession sampleCrypto 7 8 (some "bye")
        { st0 with connected := true, key := some [9], storageSlot := some "x" }
        = .ok (s1, sent, evs) ∧ s1.storageSlot = none ∧ s1.connected = false) ∧
    ((handleSessionResponse "u" (.null) { st0 with connected := true, storageSlot := some "x" }
        (sessionParamsJVal false none none (some "no")) "err").1.storageSlot = none ∧
     (handleSessionResponse "u" (.null) { st0 with connected := true, storageSlot := some "x" }
        (sessionParamsJVal false none none (some "no")) "err").1.connected = false) :=
  claim_C8 sampleCrypto 7 8 (some "bye")
    { st0 with connected := true, key := some [9], storageSlot := some "x" }
    "u" (.null) { st0 with connected := true, storageSlot := some "x" }
    (sessionParamsJVal false none none (some "no")) "err" rfl rfl

/-- C9: an inbound frame whose topic is neither `clientId` nor
`handshakeTopic` is dropped with no side effects: the state is returned
unchanged, no payload is handed to `_triggerEvents` (so no listener fires),
and `_decrypt` is never invoked.  The hypothesis `clientId ≠ ""` holds in
every state that can receive a frame, because the `onopen` handler forces
the lazy `clientId` getter before any message can arrive. -/
theorem claim_C9 (crypto : CryptoLib) (jsonParse : String → Option JVal) (uu : String)
    (s : Connector) (frame : ISocketMessage) (h1 : s.clientId ≠ "")
    (h2 : frame.topic ≠ s.clientId) (h3 : frame.topic ≠ s.handshakeTopic) :
    socketReceive crypto jsonParse uu s frame = .ok (s, none, false) := by
  have hlz : clientIdLazy uu s = (s.clientId, s) := by
    unfold clientIdLazy
    rw [if_neg h1]
  simp [socketReceive, hlz, h2, h3]

/-- C9, witness: a concrete frame on a foreign topic is dropped unchanged. -/
theorem claim_C9_witness :
    socketReceive sampleCrypto (fun _ => some .null) "u" st0 ⟨"other", "pub", "zz"⟩
      = .ok (st0, none, false) :=
  claim_C9 sampleCrypto (fun _ => some .null) "u" st0 ⟨"other", "pub", "zz"⟩
    (by decide) (by decide) (by decide)

/-- C10: `approveRequest` and `rejectRequest` are extensionally equal — both
format the partial response with `_formatResponse` (filling `jsonrpc`) and
hand it to `_sendResponse`; `rejectRequest` adds no error marking and no
extra state change. -/
theorem claim_C10 (crypto : CryptoLib) (s : Connector) (response : JVal) :
    approveRequest crypto s response = rejectRequest crypto s response :=
  rfl

end WalletConnect
